import Mathlib

/-!
Shallow embedding of the vanity onion-identity core of the repository:
the search/derivation pipeline of `vanity.RunVanity` (src/vanity/vanity.go)
and the key-set validator of `service.runTorHiddenService`
(src/service/static.go), together with the cryptographic primitives those
functions call (SHA-512, SHA3-256, base32, Ed25519 public-key derivation).

Bytes are modelled as `List Nat` with values kept below 256 by
construction; 64-bit machine words are `Nat` reduced modulo `2 ^ 64` at
every operation that can overflow.
-/

namespace Cheeseburger

abbrev Bytes := List Nat

/-- Truncation to a 64-bit machine word. -/
def u64 (x : Nat) : Nat := x % (2 ^ 64)

/-- 64-bit right rotation. -/
def rotr64 (x n : Nat) : Nat := u64 ((x >>> n) ||| (x <<< (64 - n)))

/-- Big-endian interpretation of a byte list as one machine word. -/
def wordBE (bs : Bytes) : Nat := bs.foldl (fun a b => a * 256 + b) 0

/-- Big-endian byte expansion of a 64-bit word, 8 bytes. -/
def wordBytesBE (w : Nat) : Bytes :=
  (List.range 8).map (fun i => (w >>> (8 * (7 - i))) % 256)

/-- Split a byte list into chunks of `n` bytes (fuel-driven so the kernel
can evaluate it). -/
def chunks (fuel n : Nat) (bs : Bytes) : List Bytes :=
  match fuel with
  | 0 => []
  | f + 1 => if bs.isEmpty then [] else bs.take n :: chunks f n (bs.drop n)

/-- The 80 SHA-512 round constants (FIPS 180-4). -/
def sha512K : List Nat :=
  [4794697086780616226, 8158064640168781261, 13096744586834688815, 16840607885511220156,
  4131703408338449720, 6480981068601479193, 10538285296894168987, 12329834152419229976,
  15566598209576043074, 1334009975649890238, 2608012711638119052, 6128411473006802146,
  8268148722764581231, 9286055187155687089, 11230858885718282805, 13951009754708518548,
  16472876342353939154, 17275323862435702243, 1135362057144423861, 2597628984639134821,
  3308224258029322869, 5365058923640841347, 6679025012923562964, 8573033837759648693,
  10970295158949994411, 12119686244451234320, 12683024718118986047, 13788192230050041572,
  14330467153632333762, 15395433587784984357, 489312712824947311, 1452737877330783856,
  2861767655752347644, 3322285676063803686, 5560940570517711597, 5996557281743188959,
  7280758554555802590, 8532644243296465576, 9350256976987008742, 10552545826968843579,
  11727347734174303076, 12113106623233404929, 14000437183269869457, 14369950271660146224,
  15101387698204529176, 15463397548674623760, 17586052441742319658, 1182934255886127544,
  1847814050463011016, 2177327727835720531, 2830643537854262169, 3796741975233480872,
  4115178125766777443, 5681478168544905931, 6601373596472566643, 7507060721942968483,
  8399075790359081724, 8693463985226723168, 9568029438360202098, 10144078919501101548,
  10430055236837252648, 11840083180663258601, 13761210420658862357, 14299343276471374635,
  14566680578165727644, 15097957966210449927, 16922976911328602910, 17689382322260857208,
  500013540394364858, 748580250866718886, 1242879168328830382, 1977374033974150939,
  2944078676154940804, 3659926193048069267, 4368137639120453308, 4836135668995329356,
  5532061633213252278, 6448918945643986474, 6902733635092675308, 7801388544844847127]

/-- SHA-512 working state: eight 64-bit chaining words. -/
structure Sha512St where
  a : Nat
  b : Nat
  c : Nat
  d : Nat
  e : Nat
  f : Nat
  g : Nat
  h : Nat
deriving DecidableEq, Repr

/-- Initial SHA-512 chaining value (FIPS 180-4). -/
def sha512H0 : Sha512St :=
  ⟨7640891576956012808, 13503953896175478587, 4354685564936845355, 11912009170470909681,
   5840696475078001361, 11170449401992604703, 2270897969802886507, 6620516959819538809⟩

def bigSigma0 (x : Nat) : Nat := rotr64 x 28 ^^^ rotr64 x 34 ^^^ rotr64 x 39

def bigSigma1 (x : Nat) : Nat := rotr64 x 14 ^^^ rotr64 x 18 ^^^ rotr64 x 41

def smallSigma0 (x : Nat) : Nat := rotr64 x 1 ^^^ rotr64 x 8 ^^^ (x >>> 7)

def smallSigma1 (x : Nat) : Nat := rotr64 x 19 ^^^ rotr64 x 61 ^^^ (x >>> 6)

/-- Bitwise choice, written with XOR against the all-ones word in place of
machine complement. -/
def chFun (x y z : Nat) : Nat := (x &&& y) ^^^ ((x ^^^ (2 ^ 64 - 1)) &&& z)

def majFun (x y z : Nat) : Nat := (x &&& y) ^^^ (x &&& z) ^^^ (y &&& z)

/-- One SHA-512 compression round for a constant/schedule word pair. -/
def sha512Round (st : Sha512St) (kw : Nat × Nat) : Sha512St :=
  let t1 := u64 (st.h + bigSigma1 st.e + chFun st.e st.f st.g + kw.1 + kw.2)
  let t2 := u64 (bigSigma0 st.a + majFun st.a st.b st.c)
  ⟨u64 (t1 + t2), st.a, st.b, st.c, u64 (st.d + t1), st.e, st.f, st.g⟩

/-- Message-schedule expansion of the 16 block words to 80 words. -/
def sha512Schedule (w16 : List Nat) : List Nat :=
  (List.range 64).foldl
    (fun w t =>
      w ++ [u64 (smallSigma1 (w.getD (t + 14) 0) + w.getD (t + 9) 0 +
                 smallSigma0 (w.getD (t + 1) 0) + w.getD t 0)])
    w16

/-- Compression of one 128-byte block into the chaining state. -/
def sha512Block (st : Sha512St) (block : Bytes) : Sha512St :=
  let w16 := (List.range 16).map (fun i => wordBE ((block.drop (8 * i)).take 8))
  let w := sha512Schedule w16
  let s := (sha512K.zip w).foldl sha512Round st
  ⟨u64 (st.a + s.a), u64 (st.b + s.b), u64 (st.c + s.c), u64 (st.d + s.d),
   u64 (st.e + s.e), u64 (st.f + s.f), u64 (st.g + s.g), u64 (st.h + s.h)⟩

/-- SHA-512 padding: `0x80`, zeros, and the 128-bit big-endian bit length. -/
def sha512Pad (msg : Bytes) : Bytes :=
  let L := msg.length
  msg ++ [128] ++ List.replicate ((128 - (L + 17) % 128) % 128) 0 ++
    (List.range 16).map (fun i => ((8 * L) >>> (8 * (15 - i))) % 256)

/-- The 64-byte SHA-512 digest of a byte string. -/
def sha512 (msg : Bytes) : Bytes :=
  let padded := sha512Pad msg
  let st := (chunks (padded.length + 1) 128 padded).foldl sha512Block sha512H0
  ([st.a, st.b, st.c, st.d, st.e, st.f, st.g, st.h].map wordBytesBE).flatten

/-! ## SHA3-256 (Keccak), used for the onion-address checksum -/

/-- 64-bit left rotation. -/
def rotl64 (x n : Nat) : Nat := u64 ((x <<< n) ||| (x >>> (64 - n)))

/-- All-ones 64-bit word, for bitwise complement via XOR. -/
def u64Max : Nat := 2 ^ 64 - 1

/-- The 24 Keccak-f[1600] round constants. -/
def keccakRC : List Nat :=
  [1, 32898, 9223372036854808714, 9223372039002292224, 32907, 2147483649,
   9223372039002292353, 9223372036854808585, 138, 136, 2147516425, 2147483658,
   2147516555, 9223372036854775947, 9223372036854808713, 9223372036854808579,
   9223372036854808578, 9223372036854775936, 32778, 9223372039002259466,
   9223372039002292353, 9223372036854808704, 2147483649, 9223372039002292232]

/-- Combined rho/pi step table: destination lane `j` takes source lane
`(keccakPiRho[j]).1` rotated left by `(keccakPiRho[j]).2`. -/
def keccakPiRho : List (Nat × Nat) :=
  [(0, 0), (6, 44), (12, 43), (18, 21), (24, 14), (3, 28), (9, 20), (10, 3),
   (16, 45), (22, 61), (1, 1), (7, 6), (13, 25), (19, 8), (20, 18), (4, 27),
   (5, 36), (11, 10), (17, 15), (23, 56), (2, 62), (8, 55), (14, 39), (15, 41),
   (21, 2)]

/-- One Keccak-f round: theta, rho, pi, chi, iota. The state is the list of
25 lanes, lane `(x, y)` at index `x + 5 * y`. -/
def keccakRound (A : List Nat) (rc : Nat) : List Nat :=
  let C := (List.range 5).map (fun x =>
    A.getD x 0 ^^^ A.getD (x + 5) 0 ^^^ A.getD (x + 10) 0 ^^^
    A.getD (x + 15) 0 ^^^ A.getD (x + 20) 0)
  let D := (List.range 5).map (fun x =>
    C.getD ((x + 4) % 5) 0 ^^^ rotl64 (C.getD ((x + 1) % 5) 0) 1)
  let At := (List.range 25).map (fun i => A.getD i 0 ^^^ D.getD (i % 5) 0)
  let Ap := keccakPiRho.map (fun sr => rotl64 (At.getD sr.1 0) sr.2)
  let Ac := (List.range 25).map (fun i =>
    Ap.getD i 0 ^^^
      ((Ap.getD ((i % 5 + 1) % 5 + 5 * (i / 5)) 0 ^^^ u64Max) &&&
        Ap.getD ((i % 5 + 2) % 5 + 5 * (i / 5)) 0))
  Ac.set 0 (Ac.getD 0 0 ^^^ rc)

/-- Keccak-f[1600] permutation: 24 rounds. -/
def keccakF (A : List Nat) : List Nat := keccakRC.foldl keccakRound A

/-- Little-endian interpretation of up to 8 bytes as one 64-bit lane. -/
def wordLE (bs : Bytes) : Nat := bs.foldr (fun b acc => b + 256 * acc) 0

/-- Domain-separated SHA-3 padding for rate 136 (`0x06 … 0x80`). -/
def sha3Pad (msg : Bytes) : Bytes :=
  let q := 136 - msg.length % 136
  if q = 1 then msg ++ [134]
  else msg ++ [6] ++ List.replicate (q - 2) 0 ++ [128]

/-- Absorb one 136-byte block into the state by lane-wise XOR. -/
def sha3Absorb (A : List Nat) (block : Bytes) : List Nat :=
  keccakF ((List.range 25).map (fun i =>
    A.getD i 0 ^^^ wordLE ((block.drop (8 * i)).take 8)))

/-- The 32-byte SHA3-256 digest of a byte string. -/
def sha3_256 (msg : Bytes) : Bytes :=
  let padded := sha3Pad msg
  let A := (chunks (padded.length + 1) 136 padded).foldl sha3Absorb
    (List.replicate 25 0)
  (List.range 32).map (fun i => (A.getD (i / 8) 0 >>> (8 * (i % 8))) % 256)

/-! ## Base32 and lowercase strings

`RunVanity` encodes the 35 address bytes with Go's
`base32.StdEncoding.WithPadding(NoPadding)` (the RFC 4648 standard
alphabet, no `=` padding) and lowercases the result with
`strings.ToLower`.  Strings are modelled as `List Char`; `ToLower` on the
ASCII data involved is the ASCII lowercase map. -/

/-- The RFC 4648 standard base32 alphabet, as used by Go's
`base32.StdEncoding`. -/
def base32Alphabet : List Char :=
  ['A', 'B', 'C', 'D', 'E', 'F', 'G', 'H', 'I', 'J', 'K', 'L', 'M', 'N',
   'O', 'P', 'Q', 'R', 'S', 'T', 'U', 'V', 'W', 'X', 'Y', 'Z', '2', '3',
   '4', '5', '6', '7']

/-- Alphabet character for one 5-bit group. -/
def b32CharAt (v : Nat) : Char := base32Alphabet.getD (v % 32) 'A'

/-- Unpadded RFC 4648 base32: the input bytes are read as one big-endian
bit string, zero-extended on the right to a multiple of 5 bits, and each
consecutive 5-bit group is mapped through the alphabet. -/
def base32NoPad (bs : Bytes) : List Char :=
  let nBits := 8 * bs.length
  let nChars := (nBits + 4) / 5
  let n := (bs.foldl (fun a b => a * 256 + b) 0) <<< (5 * nChars - nBits)
  (List.range nChars).map (fun j => b32CharAt (n >>> (5 * (nChars - 1 - j))))

/-- ASCII lowercase of one character (what `strings.ToLower` does on the
ASCII-only strings appearing here). -/
def lowerChar (c : Char) : Char :=
  if 'A' ≤ c ∧ c ≤ 'Z' then Char.ofNat (c.toNat + 32) else c

/-- ASCII lowercase of a string. -/
def toLowerChars (s : List Char) : List Char := s.map lowerChar

/-- Byte values of an ASCII string. -/
def asciiBytes (s : String) : Bytes := s.data.map Char.toNat

/-! ## Scalar clamping and Ed25519 public-key derivation

`RunVanity` (vanity.go:54-57) computes `expanded := sha512.Sum512(seed)`
and then clears the low 3 bits of byte 0, clears the high bit of byte 31
and sets the second-highest bit of byte 31.  Go's
`ed25519.NewKeyFromSeed` applies the same clamping to the first 32 bytes
of the SHA-512 digest of its seed argument and multiplies the base point
by the resulting little-endian scalar. -/

/-- Clamping of vanity.go:55-57 (and of the scalar half inside
`ed25519.NewKeyFromSeed`): byte 0 is masked with 248, byte 31 is masked
with 127 and then ORed with 64. -/
def clampBytes (d : Bytes) : Bytes :=
  let d0 := d.set 0 (d.getD 0 0 &&& 248)
  d0.set 31 ((d0.getD 31 0 &&& 127) ||| 64)

/-- `ScalarExpander.expand`: the clamped 64-byte SHA-512 digest of the
seed (vanity.go:54-57). -/
def expand (seed : Bytes) : Bytes := clampBytes (sha512 seed)

/-- The Ed25519 field prime `2^255 - 19`. -/
def edP : Nat := 2 ^ 255 - 19

/-- The Edwards curve constant `d = -121665/121666 mod p`. -/
def edD : Nat :=
  37095705934669439343138083508754565189542113879843219016388785533085940283555

/-- An Ed25519 point in extended twisted Edwards coordinates. -/
structure EdPoint where
  x : Nat
  y : Nat
  z : Nat
  t : Nat
deriving DecidableEq, Repr

/-- The neutral element. -/
def edId : EdPoint := ⟨0, 1, 1, 0⟩

/-- The standard base point `B`. -/
def edB : EdPoint :=
  ⟨15112221349535400772501151409588531511454012693041857206046113283949847762202,
   46316835694926478169428394003475163141307993866256225615783033603165251855960,
   1,
   15112221349535400772501151409588531511454012693041857206046113283949847762202 *
     46316835694926478169428394003475163141307993866256225615783033603165251855960 % edP⟩

/-- Complete twisted Edwards point addition in extended coordinates
(RFC 8032, section 5.1.4). -/
def edAdd (P Q : EdPoint) : EdPoint :=
  let A := (P.y + edP - P.x) * (Q.y + edP - Q.x) % edP
  let B := (P.y + P.x) * (Q.y + Q.x) % edP
  let C := 2 * edD * P.t % edP * Q.t % edP
  let D := 2 * P.z * Q.z % edP
  let E := B + edP - A
  let F := D + edP - C
  let G := D + C
  let H := B + A
  ⟨E * F % edP, G * H % edP, F * G % edP, E * H % edP⟩

/-- One double-and-add step: doubling, plus a conditional add of `P` when
bit `f` of the scalar is set. -/
def edStep (n : Nat) (P : EdPoint) (f : Nat) (Q : EdPoint) : EdPoint :=
  let Q2 := edAdd Q Q
  if n.testBit f then edAdd Q2 P else Q2

/-- Double-and-add loop over the scalar bits, most significant first: at
fuel `f + 1` the step for bit `f` is taken. -/
def edSmulGo (n : Nat) (P : EdPoint) : Nat → EdPoint → EdPoint
  | 0, Q => Q
  | f + 1, Q => edSmulGo n P f (edStep n P f Q)

/-- Scalar multiplication by binary double-and-add over the 256 scalar
bits, most significant first. -/
def edSmul (n : Nat) (P : EdPoint) : EdPoint := edSmulGo n P 256 edId

/-- `k` explicit steps of the double-and-add loop (first argument the
step count `k`, second the starting fuel). -/
def edRun (n : Nat) (P : EdPoint) : Nat → Nat → EdPoint → EdPoint
  | 0, _, Q => Q
  | _ + 1, 0, Q => Q
  | k + 1, f + 1, Q => edRun n P k f (edStep n P f Q)

/-- Modular exponentiation by square-and-multiply over 256 exponent bits,
most significant first. -/
def powMod (b e m : Nat) : Nat :=
  (List.range 256).foldl
    (fun a i =>
      let a2 := a * a % m
      if e.testBit (255 - i) then a2 * b % m else a2)
    1

/-- Field inverse via Fermat. -/
def edInv (x : Nat) : Nat := powMod x (edP - 2) edP

/-- Compressed point encoding: 32 little-endian bytes of `y`, with the
parity of `x` in the top bit. -/
def edEncode (P : EdPoint) : Bytes :=
  let zi := edInv P.z
  let x := P.x * zi % edP
  let y := P.y * zi % edP
  let v := y + x % 2 * 2 ^ 255
  (List.range 32).map (fun i => (v >>> (8 * i)) % 256)

/-- Little-endian interpretation of a byte list as a scalar. -/
def bytesLE (bs : Bytes) : Nat := bs.foldr (fun b acc => b + 256 * acc) 0

/-- Go's `ed25519.NewKeyFromSeed`, public-key half: hash the seed with
SHA-512, clamp the first 32 bytes, use them as a little-endian scalar and
multiply the base point. -/
def newKeyFromSeed (seed : Bytes) : Bytes :=
  let h := sha512 seed
  edEncode (edSmul (bytesLE (clampBytes (h.take 32))) edB)

/-- The public key `ed25519.GenerateKey` pairs with a given 32-byte seed
(`KeyPairSource`: `GenerateKey` draws the seed from the random stream and
derives the public key exactly as `NewKeyFromSeed`). -/
def pubOf (seed : Bytes) : Bytes := newKeyFromSeed seed

/-- The secret seed of RFC 8032 test vector 1. -/
def rfc8032Seed1 : Bytes :=
  [0x9d, 0x61, 0xb1, 0x9d, 0xef, 0xfd, 0x5a, 0x60, 0xba, 0x84, 0x4a, 0xf4,
   0x92, 0xec, 0x2c, 0xc4, 0x44, 0x49, 0xc5, 0x69, 0x7b, 0x32, 0x69, 0x19,
   0x70, 0x3b, 0xac, 0x03, 0x1c, 0xae, 0x7f, 0x60]

/-! ## The vanity search pipeline of `RunVanity` (vanity.go)

A worker iteration draws a random 32-byte seed, derives the Ed25519
public key, computes the onion address and tests it against the
lowercased prefix flag.  The address computation (vanity.go:59-65) is:
checksum data `".onion checksum" ++ pub ++ [3]`, SHA3-256, first two
bytes appended to the public key together with the version byte, base32
encoded and lowercased. -/

/-- The onion address version byte (vanity.go:32). -/
def onionVersion : Nat := 3

/-- The two checksum bytes (vanity.go:59-60), from the code's append
order `(".onion checksum" ++ pub) ++ [version]`. -/
def onionChecksum (pub : Bytes) : Bytes :=
  (sha3_256 ((asciiBytes ".onion checksum" ++ pub) ++ [onionVersion])).take 2

/-- The 35 address bytes (vanity.go:62-63): public key, two checksum
bytes, version byte. -/
def onionBytesOf (pub : Bytes) : Bytes :=
  (pub ++ onionChecksum pub) ++ [onionVersion]

/-- The onion address string (vanity.go:64-65): unpadded base32,
lowercased. -/
def onionAddress (pub : Bytes) : List Char :=
  toLowerChars (base32NoPad (onionBytesOf pub))

/-- `AddressCodec.encode` as the specification words it: checksum is the
first two bytes of the hash of `".onion checksum" || publicKey ||
version`, the address bytes are `publicKey || checksum || version`, and
the result is their lowercase unpadded base32 encoding. -/
def onionAddressSpec (pub : Bytes) : List Char :=
  let checksum := (sha3_256 (asciiBytes ".onion checksum" ++ (pub ++ [onionVersion]))).take 2
  toLowerChars (base32NoPad (pub ++ (checksum ++ [onionVersion])))

/-- The lowercase onion-address alphabet: letters a-z and digits 2-7. -/
def onionAlphabet : List Char :=
  ['a', 'b', 'c', 'd', 'e', 'f', 'g', 'h', 'i', 'j', 'k', 'l', 'm', 'n',
   'o', 'p', 'q', 'r', 's', 't', 'u', 'v', 'w', 'x', 'y', 'z', '2', '3',
   '4', '5', '6', '7']

/-- The error taxonomy position the specification reserves for a
malformed prefix. -/
inductive VanityError
  | invalidPrefix
deriving DecidableEq, Repr

/-- Prefix validation as `RunVanity` actually performs it (vanity.go:
21-31): the flag value is only lowercased (line 30) and then used
directly in the match test (line 67); no character of the flag is ever
checked against the address alphabet and no error path for the prefix
exists, so no input is ever rejected. -/
def prefixValidation (_pfxArg : List Char) : Option VanityError := none

/-- The worker's match test (vanity.go:67):
`prefixLower == "" || strings.HasPrefix(onionAddr, prefixLower)`. -/
def prefixMatches (prefixLower addr : List Char) : Bool :=
  prefixLower.isEmpty || prefixLower.isPrefixOf addr

/-! ## Persistor: the three-file key set written by `RunVanity -save`
(vanity.go:91-116) -/

def secretKeyPath : String := "data/vanity/default/hs_ed25519_secret_key"

def publicKeyPath : String := "data/vanity/default/hs_ed25519_public_key"

def hostnamePath : String := "data/vanity/default/hostname"

/-- The path `runTorHiddenService` stats to decide between persistent
and temporary mode (static.go:28-37). -/
def vanityJsonPath : String := "data/vanity/default/vanity.json"

/-- The 29-character ASCII tag of the secret-key file. -/
def secretTag : Bytes := asciiBytes "== ed25519v1-secret: type0 =="

/-- The 29-character ASCII tag of the public-key file. -/
def publicTag : Bytes := asciiBytes "== ed25519v1-public: type0 =="

/-- The 32-byte secret-file header as `save` writes it (vanity.go:97:
the tag string with three explicit NUL bytes appended). -/
def secretHeaderPadded : Bytes := secretTag ++ [0, 0, 0]

/-- The 32-byte public-file header as `save` writes it (vanity.go:104). -/
def publicHeaderPadded : Bytes := publicTag ++ [0, 0, 0]

/-- Content of the secret-key file: 32-byte header then the 64-byte
expanded scalar (vanity.go:97). -/
def secretFileData (expanded : Bytes) : Bytes := secretHeaderPadded ++ expanded

/-- Content of the public-key file: 32-byte header then the 32-byte
public key (vanity.go:104). -/
def publicFileData (pub : Bytes) : Bytes := publicHeaderPadded ++ pub

/-- The hostname-file suffix `".onion\n"` appended to the address
(vanity.go:111). -/
def onionSuffix : List Char := ['.', 'o', 'n', 'i', 'o', 'n', '\n']

/-- Content of the hostname file, as bytes. -/
def hostnameFileData (addr : List Char) : Bytes :=
  (addr ++ onionSuffix).map Char.toNat

/-- A file system: an association of paths to contents. -/
abbrev FS := List (String × Bytes)

/-- `os.WriteFile`: create or overwrite. -/
def fsSet (fs : FS) (path : String) (content : Bytes) : FS :=
  (path, content) :: fs.filter (fun e => e.1 ≠ path)

/-- Look a path up. -/
def fsGet (fs : FS) (path : String) : Option Bytes :=
  (fs.find? (fun e => e.1 = path)).map (fun e => e.2)

/-- The three writes `save` performs, in program order
(vanity.go:96-113). -/
def saveWrites (pub expanded : Bytes) (addr : List Char) : List (String × Bytes) :=
  [(secretKeyPath, secretFileData expanded),
   (publicKeyPath, publicFileData pub),
   (hostnamePath, hostnameFileData addr)]

/-- Sequential execution of `save`'s writes.  `ok i` models whether the
`i`-th `os.WriteFile` call succeeds; on the first failure `RunVanity`
calls `log.Fatalf` and the process dies, leaving every file already
written in place (vanity.go:98-115: three `os.WriteFile` calls with no
staging, renaming or rollback). -/
def runSave : FS → List (String × Bytes) → (Nat → Bool) → Nat → FS × Bool
  | fs, [], _, _ => (fs, true)
  | fs, w :: ws, ok, i =>
    if ok i then runSave (fsSet fs w.1 w.2) ws ok (i + 1) else (fs, false)

/-! ## Validator: the key-set checks of `runTorHiddenService`
(static.go:78-112) -/

/-- Outcome of the load-and-verify phase.  Every `log.Fatalf` branch of
the Go code is one failure constructor. -/
inductive VerifyOutcome
  | notPersistent
  | readError
  | secretFormatError
  | publicFormatError
  | pubKeyMismatch
  | hostnameMismatch
  | verified
deriving DecidableEq, Repr

/-- ASCII whitespace, as `strings.TrimSpace` sees the bytes involved. -/
def isSpaceByte (b : Nat) : Bool :=
  b = 32 || b = 9 || b = 10 || b = 13 || b = 11 || b = 12

/-- `strings.TrimSpace` on bytes. -/
def trimSpaceBytes (bs : Bytes) : Bytes :=
  ((bs.dropWhile isSpaceByte).reverse.dropWhile isSpaceByte).reverse

/-- The verification sequence of static.go:84-110 on the three loaded
files.  `vkOnion` is the `OnionAddress` field parsed from
`vanity.json`.  The secret-key file must be 96 bytes with the 32-byte
secret header; the stored scalar `secretData[32:64]` is fed to
`ed25519.NewKeyFromSeed` (static.go:91-92); the public-key file must be
64 bytes with the public header; its last 32 bytes must equal the
derived key; the trimmed hostname must equal `vkOnion`. -/
def verifyKeySet (secretData pubData hostData vkOnion : Bytes) : VerifyOutcome :=
  if secretData.length = 96 ∧ secretData.take 32 = secretHeaderPadded then
    let derivedPub := newKeyFromSeed ((secretData.drop 32).take 32)
    if pubData.length = 64 ∧ pubData.take 32 = publicHeaderPadded then
      if pubData.drop 32 = derivedPub then
        if trimSpaceBytes hostData = vkOnion then .verified
        else .hostnameMismatch
      else .pubKeyMismatch
    else .publicFormatError
  else .secretFormatError

/-- `Persistor.load` followed by `Validator.verify`, as
`runTorHiddenService` performs them: if `vanity.json` is absent the
persistent branch is never taken and nothing is verified
(static.go:34-37); otherwise the three files are read and checked. -/
def loadAndVerify (fs : FS) (vkOnion : Bytes) : VerifyOutcome :=
  if (fsGet fs vanityJsonPath).isNone then .notPersistent
  else
    match fsGet fs secretKeyPath, fsGet fs publicKeyPath, fsGet fs hostnamePath with
    | some s, some p, some h => verifyKeySet s p h vkOnion
    | _, _, _ => .readError

/-- The derivation the validator performs on the stored 32 scalar bytes
(static.go:91-92): they are passed to `ed25519.NewKeyFromSeed`, which
hashes them again with SHA-512 before clamping and multiplying. -/
def validatorDerivedPub (scalar : Bytes) : Bytes := newKeyFromSeed scalar

/-- Modelled from the spec: the derivation section 4.5 and section 9 of
the specification prescribe for the validator — the stored clamped bytes
are used directly as the little-endian scalar multiplying the base
point, with no re-hashing.  (No function of the repository implements
this; it is stated here only to compare the code against it.) -/
def specDerivedPub (scalar : Bytes) : Bytes :=
  edEncode (edSmul (bytesLE scalar) edB)

/-! ## Concrete values for the all-zero seed -/

/-- The 32-byte all-zero seed, standing for one concrete output of the
random source. -/
def seed0 : Bytes := List.replicate 32 0

def expanded0 : Bytes := expand seed0

def pub0 : Bytes := pubOf seed0

def addr0 : List Char := onionAddress pub0

def expanded0Lit : Bytes :=
  [80, 70, 173, 193, 219, 168, 56, 134, 123, 43, 187, 253, 208, 195, 66, 62,
   88, 181, 121, 112, 181, 38, 122, 144, 245, 121, 96, 146, 74, 135, 241, 86,
   10, 106, 133, 234, 166, 66, 218, 200, 53, 66, 75, 93, 124, 141, 99, 124,
   0, 64, 140, 122, 115, 218, 103, 43, 127, 73, 133, 33, 66, 11, 109, 211]

def pub0Lit : Bytes :=
  [59, 106, 39, 188, 206, 182, 164, 45, 98, 163, 168, 208, 42, 111, 13, 115,
   101, 50, 21, 119, 29, 226, 67, 166, 58, 192, 72, 161, 139, 89, 218, 41]

def scalar0Lit : Bytes :=
  [80, 70, 173, 193, 219, 168, 56, 134, 123, 43, 187, 253, 208, 195, 66, 62,
   88, 181, 121, 112, 181, 38, 122, 144, 245, 121, 96, 146, 74, 135, 241, 86]

def addr0Lit : List Char :=
  ['h', 'n', 'v', 'c', 'p', 'p', 'g', 'o', 'w', '2', 's', 'c', '2', 'y',
   'v', 'd', 'v', 'd', 'i', 'c', 'u', '3', 'y', 'n', 'o', 'n', 's', 't',
   'e', 'f', 'l', 'x', 'd', 'x', 'r', 'e', 'h', 'j', 'r', '2', 'y', 'b',
   'e', 'k', 'd', 'c', '2', 'z', '3', 'i', 'u', '6', '3', 'y', 'i', 'd']

/-! ## SearchCoordinator: workers, unbuffered result channel,
cancellation (vanity.go:41-89)

A worker loops: if the context is cancelled it returns; otherwise it
generates a key pair and, on a prefix match, performs a blocking send on
the unbuffered `resultChan` and returns.  The main goroutine performs a
single receive and then cancels the context.  The model is an
interleaving semantics over explicit schedules: one step either runs one
worker iteration, completes the unbuffered-channel rendezvous between a
sending worker and the receiving main goroutine, or lets main run
`cancel()` after its receive.  `oracle i k` abstracts whether worker
`i`'s `k`-th generated key matches the prefix. -/

inductive WorkerPhase
  | running
  | sending
  | terminated
deriving DecidableEq, Repr

structure WorkerSt where
  phase : WorkerPhase
  iter : Nat
deriving DecidableEq, Repr

inductive MainPhase
  | waiting
  | gotResult
  | finished
deriving DecidableEq, Repr

structure CoordState where
  workers : List WorkerSt
  main : MainPhase
  cancelled : Bool
  received : Nat
deriving DecidableEq, Repr

inductive CoordAct
  | work (i : Nat)
  | recv (i : Nat)
  | finish
deriving DecidableEq, Repr

/-- Number of workers spawned by `for i := 0; i < workers; i++`
(vanity.go:84-86): none when the flag is zero or negative. -/
def spawnCount (w : Int) : Nat := if w ≤ 0 then 0 else w.toNat

def coordInit (n : Nat) : CoordState :=
  ⟨List.replicate n ⟨.running, 0⟩, .waiting, false, 0⟩

/-- One interleaving step.  A disabled action leaves the state
unchanged.  A `sending` worker has no solo step: the blocking send on
the unbuffered channel can only complete jointly with main's receive
(`recv`), which is the only receive the program ever executes. -/
def coordStep (oracle : Nat → Nat → Bool) (s : CoordState) (a : CoordAct) : CoordState :=
  match a with
  | .work i =>
    match s.workers[i]? with
    | some w =>
      match w.phase with
      | .running =>
        if s.cancelled then
          ⟨s.workers.set i ⟨.terminated, w.iter⟩, s.main, s.cancelled, s.received⟩
        else if oracle i w.iter then
          ⟨s.workers.set i ⟨.sending, w.iter + 1⟩, s.main, s.cancelled, s.received⟩
        else
          ⟨s.workers.set i ⟨.running, w.iter + 1⟩, s.main, s.cancelled, s.received⟩
      | _ => s
    | none => s
  | .recv i =>
    if s.main = .waiting then
      match s.workers[i]? with
      | some w =>
        if w.phase = .sending then
          ⟨s.workers.set i ⟨.terminated, w.iter⟩, .gotResult, s.cancelled,
           s.received + 1⟩
        else s
      | none => s
    else s
  | .finish =>
    if s.main = .gotResult then
      ⟨s.workers, .finished, true, s.received⟩
    else s

/-- Run a schedule. -/
def coordRun (oracle : Nat → Nat → Bool) (s : CoordState) (acts : List CoordAct) : CoordState :=
  acts.foldl (coordStep oracle) s

/-- Every worker has terminated. -/
def allTerminated (s : CoordState) : Bool :=
  s.workers.all (fun w => w.phase == .terminated)

/-- An oracle under which every generated key matches (an always-true
predicate, as with the empty prefix). -/
def oracleTrue : Nat → Nat → Bool := fun _ _ => true

/-- The public key the validator's `ed25519.NewKeyFromSeed` call derives
from the stored scalar bytes of the all-zero-seed key set. -/
def derived0Lit : Bytes :=
  [106, 171, 117, 231, 125, 198, 168, 148, 188, 169, 6, 25, 187, 50, 65, 171,
   107, 194, 44, 48, 102, 206, 110, 23, 40, 104, 176, 61, 157, 61, 19, 20]

/-- The `OnionAddress` field a `vanity.json` for the all-zero-seed key
set would carry (the hostname-file content without the newline). -/
def vkOnion0 : Bytes := (addr0Lit ++ ['.', 'o', 'n', 'i', 'o', 'n']).map Char.toNat

/-- The file system produced by a fully successful `save` of the
all-zero-seed result into an empty directory. -/
def res0FS : FS := (runSave [] (saveWrites pub0 expanded0 addr0) (fun _ => true) 0).1

/-- A write oracle under which the first `os.WriteFile` succeeds and the
second fails. -/
def okFirstOnly : Nat → Bool := fun i => i == 0

/-- Invariant tying the attempt at most one receive to main's phase. -/
def recvInv (s : CoordState) : Prop :=
  (s.main = .waiting ∧ s.received = 0) ∨ (s.main ≠ .waiting ∧ s.received = 1)

/-- A schedule of two workers that both find matches: worker 0 and
worker 1 each enter the blocking send, main receives worker 0's result
and cancels. -/
def acts8 : List CoordAct := [.work 0, .work 1, .recv 0, .finish]

/-- The state reached by `acts8` from two workers under an always-true
match oracle. -/
def leak8 : CoordState := coordRun oracleTrue (coordInit 2) acts8

set_option maxRecDepth 100000

/-- Unfolding `k` steps of the double-and-add loop.  This lets concrete
scalar multiplications be evaluated in two halves, keeping kernel
reduction shallow. -/
theorem edSmulGo_chunk (n : Nat) (P : EdPoint) (k : Nat) :
    ∀ f Q, edSmulGo n P (f + k) Q = edSmulGo n P f (edRun n P k (f + k) Q) := by
  induction k with
  | zero => intro f Q; rfl
  | succ k ih =>
    intro f Q
    show edSmulGo n P (f + k) (edStep n P (f + k) Q) = _
    rw [ih]
    rfl



/-- FIPS 180-4 test vector: SHA-512 of the three ASCII bytes "abc". -/
theorem sha512_abc_vector :
    sha512 [97, 98, 99] =
      [0xdd, 0xaf, 0x35, 0xa1, 0x93, 0x61, 0x7a, 0xba, 0xcc, 0x41, 0x73, 0x49,
       0xae, 0x20, 0x41, 0x31, 0x12, 0xe6, 0xfa, 0x4e, 0x89, 0xa9, 0x7e, 0xa2,
       0x0a, 0x9e, 0xee, 0xe6, 0x4b, 0x55, 0xd3, 0x9a, 0x21, 0x92, 0x99, 0x2a,
       0x27, 0x4f, 0xc1, 0xa8, 0x36, 0xba, 0x3c, 0x23, 0xa3, 0xfe, 0xeb, 0xbd,
       0x45, 0x4d, 0x44, 0x23, 0x64, 0x3c, 0xe8, 0x0e, 0x2a, 0x9a, 0xc9, 0x4f,
       0xa5, 0x4c, 0xa4, 0x9f] := by decide

/-- FIPS 202 test vector: SHA3-256 of the three ASCII bytes "abc". -/
theorem sha3_256_abc_vector :
    sha3_256 [97, 98, 99] =
      [0x3a, 0x98, 0x5d, 0xa7, 0x4f, 0xe2, 0x25, 0xb2, 0x04, 0x5c, 0x17, 0x2d,
       0x6b, 0xd3, 0x90, 0xbd, 0x85, 0x5f, 0x08, 0x6e, 0x3e, 0x9d, 0x52, 0x5b,
       0x46, 0xbf, 0xe2, 0x45, 0x11, 0x43, 0x15, 0x32] := by decide

/-- Clamped scalar of RFC 8032 test vector 1. -/
theorem rfc8032tv1_scalar : bytesLE (clampBytes ((sha512 rfc8032Seed1).take 32)) = 36144925721603087658594284515452164870581325872720374094707712194495455132720 := by decide

/-- First 128 double-and-add steps for RFC 8032 test vector 1. -/
theorem rfc8032tv1_half1 : edRun 36144925721603087658594284515452164870581325872720374094707712194495455132720 edB 128 (128 + 128) edId = (⟨53587895376066031248027137902856812552741508596009171386930921076942042782754, 8979028827684519960195897231013813840583868058869394263327610835896675878688, 884142908416415578738732559981702926902196541085444467897651853835592097394, 47433405299422607952840001441592694309936337566765172962773312038431998761875⟩ : EdPoint) := by decide

/-- Last 128 double-and-add steps for RFC 8032 test vector 1. -/
theorem rfc8032tv1_half2 : edRun 36144925721603087658594284515452164870581325872720374094707712194495455132720 edB 128 (0 + 128) (⟨53587895376066031248027137902856812552741508596009171386930921076942042782754, 8979028827684519960195897231013813840583868058869394263327610835896675878688, 884142908416415578738732559981702926902196541085444467897651853835592097394, 47433405299422607952840001441592694309936337566765172962773312038431998761875⟩ : EdPoint) = (⟨52770025482283366614993971565652068600983072689209538955342968356898194811609, 21155205649664683059132534204355656974877666075404877226832687435573263707068, 56773911239327001921330906442964806858362550304932567823253050678797079683030, 4016686479465473499662877369546675167534421090182221814668475367243338836913⟩ : EdPoint) := by decide

/-- Scalar multiple of the base point for RFC 8032 test vector 1. -/
theorem rfc8032tv1_point : edSmul 36144925721603087658594284515452164870581325872720374094707712194495455132720 edB = (⟨52770025482283366614993971565652068600983072689209538955342968356898194811609, 21155205649664683059132534204355656974877666075404877226832687435573263707068, 56773911239327001921330906442964806858362550304932567823253050678797079683030, 4016686479465473499662877369546675167534421090182221814668475367243338836913⟩ : EdPoint) :=
  (edSmulGo_chunk 36144925721603087658594284515452164870581325872720374094707712194495455132720 edB 128 128 edId).trans
    ((congrArg (edSmulGo 36144925721603087658594284515452164870581325872720374094707712194495455132720 edB 128) rfc8032tv1_half1).trans
      ((edSmulGo_chunk 36144925721603087658594284515452164870581325872720374094707712194495455132720 edB 128 0 (⟨53587895376066031248027137902856812552741508596009171386930921076942042782754, 8979028827684519960195897231013813840583868058869394263327610835896675878688, 884142908416415578738732559981702926902196541085444467897651853835592097394, 47433405299422607952840001441592694309936337566765172962773312038431998761875⟩ : EdPoint)).trans
        (congrArg (edSmulGo 36144925721603087658594284515452164870581325872720374094707712194495455132720 edB 0) rfc8032tv1_half2)))

/-- Point encoding for RFC 8032 test vector 1. -/
theorem rfc8032tv1_encode : edEncode (⟨52770025482283366614993971565652068600983072689209538955342968356898194811609, 21155205649664683059132534204355656974877666075404877226832687435573263707068, 56773911239327001921330906442964806858362550304932567823253050678797079683030, 4016686479465473499662877369546675167534421090182221814668475367243338836913⟩ : EdPoint) = [215, 90, 152, 1, 130, 177, 10, 183, 213, 75, 254, 211, 201, 100, 7, 58, 14, 225, 114, 243, 218, 166, 35, 37, 175, 2, 26, 104, 247, 7, 81, 26] := by decide

/-- Public key derived by `NewKeyFromSeed` for RFC 8032 test vector 1. -/
theorem rfc8032tv1_pub : newKeyFromSeed rfc8032Seed1 = [215, 90, 152, 1, 130, 177, 10, 183, 213, 75, 254, 211, 201, 100, 7, 58, 14, 225, 114, 243, 218, 166, 35, 37, 175, 2, 26, 104, 247, 7, 81, 26] := by
  show edEncode (edSmul (bytesLE (clampBytes ((sha512 rfc8032Seed1).take 32))) edB) = _
  rw [rfc8032tv1_scalar, rfc8032tv1_point, rfc8032tv1_encode]



/-! ## Shape and membership lemmas for the primitives -/

/-- SHA-512 digests are 64 bytes. -/
theorem sha512_length (msg : Bytes) : (sha512 msg).length = 64 := by
  simp [sha512, wordBytesBE]

/-- SHA-512 digest entries are byte values. -/
theorem sha512_bytes_lt (msg : Bytes) : ∀ b ∈ sha512 msg, b < 256 := by
  intro b hb
  simp only [sha512, List.mem_flatten, List.mem_map] at hb
  obtain ⟨l, ⟨w, _, rfl⟩, hbl⟩ := hb
  simp only [wordBytesBE, List.mem_map] at hbl
  obtain ⟨i, _, rfl⟩ := hbl
  exact Nat.mod_lt _ (by norm_num)

/-- SHA3-256 digests are 32 bytes. -/
theorem sha3_256_length (msg : Bytes) : (sha3_256 msg).length = 32 := by
  simp [sha3_256]

/-- An element read in bounds is a member. -/
theorem getD_mem (l : Bytes) : ∀ i, i < l.length → l.getD i 0 ∈ l := by
  induction l with
  | nil => intro i h; exact absurd h (Nat.not_lt_zero i)
  | cons a t ih =>
    intro i h
    cases i with
    | zero => exact List.mem_cons_self a t
    | succ i => exact List.mem_cons_of_mem a (ih i (Nat.lt_of_succ_lt_succ h))

/-- Reading back the written position of `List.set`. -/
theorem getD_set_same (l : Bytes) : ∀ i v, i < l.length → (l.set i v).getD i 0 = v := by
  induction l with
  | nil => intro i v h; exact absurd h (Nat.not_lt_zero i)
  | cons a t ih =>
    intro i v h
    cases i with
    | zero => rfl
    | succ i => exact ih i v (Nat.lt_of_succ_lt_succ h)

/-- Reading another position of `List.set`. -/
theorem getD_set_diff (l : Bytes) : ∀ i j v, i ≠ j → (l.set i v).getD j 0 = l.getD j 0 := by
  induction l with
  | nil => intro i j v _; rfl
  | cons a t ih =>
    intro i j v hne
    cases i with
    | zero =>
      cases j with
      | zero => exact absurd rfl hne
      | succ j => rfl
    | succ i =>
      cases j with
      | zero => rfl
      | succ j => exact ih i j v (fun he => hne (congrArg Nat.succ he))

/-- The three clamping bit facts, for byte values. -/
theorem clamp_byte_facts :
    ∀ y, y < 256 →
      y &&& 248 &&& 7 = 0 ∧
      ((y &&& 127) ||| 64) &&& 128 = 0 ∧
      ((y &&& 127) ||| 64) &&& 64 = 64 := by decide

/-- Unpadded base32 produces one character per 5-bit group. -/
theorem base32NoPad_length (bs : Bytes) :
    (base32NoPad bs).length = (8 * bs.length + 4) / 5 := by
  simp [base32NoPad]

/-- Every base32 output character is an alphabet character. -/
theorem b32CharAt_mem (v : Nat) : b32CharAt v ∈ base32Alphabet := by
  have h32 : ∀ w, w < 32 → base32Alphabet.getD w 'A' ∈ base32Alphabet := by decide
  exact h32 (v % 32) (Nat.mod_lt _ (by norm_num))

/-- Lowercasing maps the base32 alphabet into the onion alphabet. -/
theorem lowerChar_alphabet : ∀ c ∈ base32Alphabet, lowerChar c ∈ onionAlphabet := by
  decide

/-- A member of a prefix is a member of the list. -/
theorem mem_of_isPrefixOf {p l : List Char} (h : p.isPrefixOf l = true)
    {c : Char} (hc : c ∈ p) : c ∈ l := by
  rw [ List.isPrefixOf_iff_prefix] at h
  exact h.mem hc

/-- A successful index lookup is a member. -/
theorem mem_of_index {α : Type} {l : List α} {i : Nat} {x : α}
    (h : l[i]? = some x) : x ∈ l :=
  List.getElem?_mem h

/-- Clamped scalar of the all-zero seed. -/
theorem zeroSeed_scalar : bytesLE (clampBytes ((sha512 seed0).take 32)) = 39325648866980652792715009169219496062012184734522019333892538943312776480336 := by decide

/-- First 128 double-and-add steps for the all-zero seed. -/
theorem zeroSeed_half1 : edRun 39325648866980652792715009169219496062012184734522019333892538943312776480336 edB 128 (128 + 128) edId = (⟨9444037289245798591551035764339836754838303567500184152958162221953003329999, 51662226020275921563208265779248991981633751420307912678020931551541791195050, 52140411133411428500113533591235506232748970677273975613137531094729673509140, 57868860969332641611146157130028622518327896960657594493370370857359586143080⟩ : EdPoint) := by decide

/-- Last 128 double-and-add steps for the all-zero seed. -/
theorem zeroSeed_half2 : edRun 39325648866980652792715009169219496062012184734522019333892538943312776480336 edB 128 (0 + 128) (⟨9444037289245798591551035764339836754838303567500184152958162221953003329999, 51662226020275921563208265779248991981633751420307912678020931551541791195050, 52140411133411428500113533591235506232748970677273975613137531094729673509140, 57868860969332641611146157130028622518327896960657594493370370857359586143080⟩ : EdPoint) = (⟨51012067176749368820891072395162213039138132224644639067888036547661005187278, 17795544213405850948028099440025783432366700216335096857458890025222446584369, 30672236085765731992549992651391047967651261110835721834037163334710935651253, 34375040867279141388115812740107052799874141800899295187537335811120951511359⟩ : EdPoint) := by decide

/-- Scalar multiple of the base point for the all-zero seed. -/
theorem zeroSeed_point : edSmul 39325648866980652792715009169219496062012184734522019333892538943312776480336 edB = (⟨51012067176749368820891072395162213039138132224644639067888036547661005187278, 17795544213405850948028099440025783432366700216335096857458890025222446584369, 30672236085765731992549992651391047967651261110835721834037163334710935651253, 34375040867279141388115812740107052799874141800899295187537335811120951511359⟩ : EdPoint) :=
  (edSmulGo_chunk 39325648866980652792715009169219496062012184734522019333892538943312776480336 edB 128 128 edId).trans
    ((congrArg (edSmulGo 39325648866980652792715009169219496062012184734522019333892538943312776480336 edB 128) zeroSeed_half1).trans
      ((edSmulGo_chunk 39325648866980652792715009169219496062012184734522019333892538943312776480336 edB 128 0 (⟨9444037289245798591551035764339836754838303567500184152958162221953003329999, 51662226020275921563208265779248991981633751420307912678020931551541791195050, 52140411133411428500113533591235506232748970677273975613137531094729673509140, 57868860969332641611146157130028622518327896960657594493370370857359586143080⟩ : EdPoint)).trans
        (congrArg (edSmulGo 39325648866980652792715009169219496062012184734522019333892538943312776480336 edB 0) zeroSeed_half2)))

/-- Point encoding for the all-zero seed. -/
theorem zeroSeed_encode : edEncode (⟨51012067176749368820891072395162213039138132224644639067888036547661005187278, 17795544213405850948028099440025783432366700216335096857458890025222446584369, 30672236085765731992549992651391047967651261110835721834037163334710935651253, 34375040867279141388115812740107052799874141800899295187537335811120951511359⟩ : EdPoint) = [59, 106, 39, 188, 206, 182, 164, 45, 98, 163, 168, 208, 42, 111, 13, 115, 101, 50, 21, 119, 29, 226, 67, 166, 58, 192, 72, 161, 139, 89, 218, 41] := by decide

/-- Public key derived by `NewKeyFromSeed` for the all-zero seed. -/
theorem zeroSeed_pub : newKeyFromSeed seed0 = [59, 106, 39, 188, 206, 182, 164, 45, 98, 163, 168, 208, 42, 111, 13, 115, 101, 50, 21, 119, 29, 226, 67, 166, 58, 192, 72, 161, 139, 89, 218, 41] := by
  show edEncode (edSmul (bytesLE (clampBytes ((sha512 seed0).take 32))) edB) = _
  rw [zeroSeed_scalar, zeroSeed_point, zeroSeed_encode]

/-- Clamped scalar of the validator rehash of the stored scalar. -/
theorem rehash0_scalar : bytesLE (clampBytes ((sha512 scalar0Lit).take 32)) = 44763991982331762263972941242176974947305465753670320198045823965870610071792 := by decide

/-- First 128 double-and-add steps for the validator rehash of the stored scalar. -/
theorem rehash0_half1 : edRun 44763991982331762263972941242176974947305465753670320198045823965870610071792 edB 128 (128 + 128) edId = (⟨40288999813202036911453536332147604705860281347290006525837228948194463564739, 33663855540968726915145530145550652287794872379486551347018171122060013190492, 2844089878390343694740575002950366897265588050111916979822523665958899623955, 43342922459402832416489627843176619717126662784342602320813374119324039535611⟩ : EdPoint) := by decide

/-- Last 128 double-and-add steps for the validator rehash of the stored scalar. -/
theorem rehash0_half2 : edRun 44763991982331762263972941242176974947305465753670320198045823965870610071792 edB 128 (0 + 128) (⟨40288999813202036911453536332147604705860281347290006525837228948194463564739, 33663855540968726915145530145550652287794872379486551347018171122060013190492, 2844089878390343694740575002950366897265588050111916979822523665958899623955, 43342922459402832416489627843176619717126662784342602320813374119324039535611⟩ : EdPoint) = (⟨31201800325495866966923120966028841985918399263855897291624363759177636111457, 48652266962925204560635284900935197900806053372837315150079432155700743448678, 22210118935371492927174588772077040218771218435353868873078791347622179149190, 15894921463532042553091815518143058704059128782280369804682460223943881040290⟩ : EdPoint) := by decide

/-- Scalar multiple of the base point for the validator rehash of the stored scalar. -/
theorem rehash0_point : edSmul 44763991982331762263972941242176974947305465753670320198045823965870610071792 edB = (⟨31201800325495866966923120966028841985918399263855897291624363759177636111457, 48652266962925204560635284900935197900806053372837315150079432155700743448678, 22210118935371492927174588772077040218771218435353868873078791347622179149190, 15894921463532042553091815518143058704059128782280369804682460223943881040290⟩ : EdPoint) :=
  (edSmulGo_chunk 44763991982331762263972941242176974947305465753670320198045823965870610071792 edB 128 128 edId).trans
    ((congrArg (edSmulGo 44763991982331762263972941242176974947305465753670320198045823965870610071792 edB 128) rehash0_half1).trans
      ((edSmulGo_chunk 44763991982331762263972941242176974947305465753670320198045823965870610071792 edB 128 0 (⟨40288999813202036911453536332147604705860281347290006525837228948194463564739, 33663855540968726915145530145550652287794872379486551347018171122060013190492, 2844089878390343694740575002950366897265588050111916979822523665958899623955, 43342922459402832416489627843176619717126662784342602320813374119324039535611⟩ : EdPoint)).trans
        (congrArg (edSmulGo 44763991982331762263972941242176974947305465753670320198045823965870610071792 edB 0) rehash0_half2)))

/-- Point encoding for the validator rehash of the stored scalar. -/
theorem rehash0_encode : edEncode (⟨31201800325495866966923120966028841985918399263855897291624363759177636111457, 48652266962925204560635284900935197900806053372837315150079432155700743448678, 22210118935371492927174588772077040218771218435353868873078791347622179149190, 15894921463532042553091815518143058704059128782280369804682460223943881040290⟩ : EdPoint) = [106, 171, 117, 231, 125, 198, 168, 148, 188, 169, 6, 25, 187, 50, 65, 171, 107, 194, 44, 48, 102, 206, 110, 23, 40, 104, 176, 61, 157, 61, 19, 20] := by decide

/-- Public key derived by `NewKeyFromSeed` for the validator rehash of the stored scalar. -/
theorem rehash0_pub : newKeyFromSeed scalar0Lit = [106, 171, 117, 231, 125, 198, 168, 148, 188, 169, 6, 25, 187, 50, 65, 171, 107, 194, 44, 48, 102, 206, 110, 23, 40, 104, 176, 61, 157, 61, 19, 20] := by
  show edEncode (edSmul (bytesLE (clampBytes ((sha512 scalar0Lit).take 32))) edB) = _
  rw [rehash0_scalar, rehash0_point, rehash0_encode]


/-! ## Concrete evaluations for the all-zero seed -/

/-- The expanded scalar of the all-zero seed. -/
theorem expanded0_eval : expanded0 = expanded0Lit := by decide

/-- The first 32 bytes of the expanded scalar form the stored secret
scalar. -/
theorem scalar0_eval : expanded0Lit.take 32 = scalar0Lit := by decide

/-- The public key paired with the all-zero seed. -/
theorem pub0_eval : pub0 = pub0Lit := by
  show newKeyFromSeed seed0 = pub0Lit
  rw [zeroSeed_pub]
  rfl

/-- The onion address of the all-zero-seed public key. -/
theorem addr0_eval : addr0 = addr0Lit := by
  show onionAddress pub0 = addr0Lit
  rw [pub0_eval]
  decide


/-! ## Claim theorems -/

/-- C3: for every 32-byte public key and version byte 3, the code's
address computation equals the specification's formula: lowercase
unpadded base32 of `pk ++ checksum ++ version`, where the checksum is
the first two bytes of the hash of `".onion checksum" || pk || version`.
-/
theorem encode_matches_spec (pk : Bytes) (h32 : pk.length = 32) :
    onionAddress pk = onionAddressSpec pk := by
  simp [onionAddress, onionAddressSpec, onionBytesOf, onionChecksum,
    List.append_assoc]

/-- Witness for `encode_matches_spec` at the all-zero public key. -/
theorem encode_matches_spec_witness :
    (List.replicate 32 0 : Bytes).length = 32 ∧
      onionAddress (List.replicate 32 0) = onionAddressSpec (List.replicate 32 0) :=
  ⟨by decide, encode_matches_spec (List.replicate 32 0) (by decide)⟩

/-- C4: for every 32-byte seed, the expanded scalar `expand seed` — the
64-byte clamped SHA-512 digest — has the low 3 bits of byte 0 cleared,
the high bit of byte 31 cleared and the second-highest bit of byte 31
set. -/
theorem expand_clamping (seed : Bytes) (h : seed.length = 32) :
    (expand seed).length = 64 ∧
    (expand seed).getD 0 0 &&& 7 = 0 ∧
    (expand seed).getD 31 0 &&& 128 = 0 ∧
    (expand seed).getD 31 0 &&& 64 = 64 := by
  have hlen : (sha512 seed).length = 64 := sha512_length seed
  have e1 : expand seed = ((sha512 seed).set 0 ((sha512 seed).getD 0 0 &&& 248)).set 31
      ((((sha512 seed).set 0 ((sha512 seed).getD 0 0 &&& 248)).getD 31 0 &&& 127) ||| 64) := rfl
  have hlt0 : (sha512 seed).getD 0 0 < 256 :=
    sha512_bytes_lt seed _ (getD_mem _ 0 (by rw [hlen]; norm_num))
  have hset0len : ((sha512 seed).set 0 ((sha512 seed).getD 0 0 &&& 248)).length = 64 := by
    simp [hlen]
  have hlt31 : ((sha512 seed).set 0 ((sha512 seed).getD 0 0 &&& 248)).getD 31 0 < 256 := by
    rw [getD_set_diff _ 0 31 _ (by norm_num)]
    exact sha512_bytes_lt seed _ (getD_mem _ 31 (by rw [hlen]; norm_num))
  refine ⟨?_, ?_, ?_, ?_⟩
  · rw [e1]; simp [hlen]
  · rw [e1, getD_set_diff _ 31 0 _ (by norm_num),
      getD_set_same _ 0 _ (by rw [hlen]; norm_num)]
    exact (clamp_byte_facts _ hlt0).1
  · rw [e1, getD_set_same _ 31 _ (by rw [hset0len]; norm_num)]
    exact (clamp_byte_facts _ hlt31).2.1
  · rw [e1, getD_set_same _ 31 _ (by rw [hset0len]; norm_num)]
    exact (clamp_byte_facts _ hlt31).2.2

/-- Witness for `expand_clamping` at the all-zero seed. -/
theorem expand_clamping_witness :
    seed0.length = 32 ∧
      (expand seed0).getD 0 0 &&& 7 = 0 ∧
      (expand seed0).getD 31 0 &&& 128 = 0 ∧
      (expand seed0).getD 31 0 &&& 64 = 64 :=
  ⟨by decide, (expand_clamping seed0 (by decide)).2.1,
    (expand_clamping seed0 (by decide)).2.2.1,
    (expand_clamping seed0 (by decide)).2.2.2⟩

/-- Helper: every onion-address character is in the lowercase alphabet
(for any public-key bytes). -/
theorem onionAddress_mem_alphabet (pk : Bytes) :
    ∀ c ∈ onionAddress pk, c ∈ onionAlphabet := by
  intro c hc
  simp only [onionAddress, toLowerChars, List.mem_map] at hc
  obtain ⟨c', hc', rfl⟩ := hc
  simp only [base32NoPad, List.mem_map] at hc'
  obtain ⟨j, _, rfl⟩ := hc'
  exact lowerChar_alphabet _ (b32CharAt_mem _)

/-- Helper: the onion address of a 32-byte public key has 56
characters. -/
theorem onionAddress_length (pk : Bytes) (h32 : pk.length = 32) :
    (onionAddress pk).length = 56 := by
  have hob : (onionBytesOf pk).length = 35 := by
    simp [onionBytesOf, onionChecksum, List.length_take, sha3_256_length, h32]
  have hb := base32NoPad_length (onionBytesOf pk)
  rw [hob] at hb
  norm_num at hb
  simp [onionAddress, toLowerChars, hb]

/-- C9: for every 32-byte public key the generated onion address is
exactly 56 characters, all from the lowercase base32 alphabet. -/
theorem onion_address_shape (pk : Bytes) (h32 : pk.length = 32) :
    (onionAddress pk).length = 56 ∧ ∀ c ∈ onionAddress pk, c ∈ onionAlphabet :=
  ⟨onionAddress_length pk h32, onionAddress_mem_alphabet pk⟩

/-- Witness for `onion_address_shape` at the all-zero public key. -/
theorem onion_address_shape_witness :
    (List.replicate 32 1 : Bytes).length = 32 ∧
      (onionAddress (List.replicate 32 1)).length = 56 :=
  ⟨by decide, (onion_address_shape (List.replicate 32 1) (by decide)).1⟩


/-- C6 counterexample: the character `0` is outside the onion-address
alphabet, yet `RunVanity` performs no prefix validation at all:
`prefixValidation` is `none` for the prefix `"0"`, not an
`InvalidPrefix` error. -/
theorem invalid_prefix_not_rejected :
    (¬ ∀ c ∈ ['0'], c ∈ onionAlphabet) ∧
    prefixValidation ['0'] ≠ some VanityError.invalidPrefix := by
  exact ⟨by decide, by decide⟩

/-- C6 amended: `RunVanity` never rejects the prefix; instead, a prefix
whose lowercase form contains a character outside the address alphabet
can never match any generated address, so the match test of
vanity.go:67 is false forever and the search never returns. -/
theorem invalid_prefix_never_matches (pfxArg : List Char) (pk : Bytes)
    (hbad : ∃ c ∈ toLowerChars pfxArg, c ∉ onionAlphabet) (hpk : pk.length = 32) :
    prefixValidation pfxArg = none ∧
    prefixMatches (toLowerChars pfxArg) (onionAddress pk) = false := by
  refine ⟨rfl, ?_⟩
  obtain ⟨c, hc, hcn⟩ := hbad
  have hne : toLowerChars pfxArg ≠ [] := by
    intro h0
    rw [h0] at hc
    cases hc
  have hef : (toLowerChars pfxArg).isEmpty = false := by
    cases hl : toLowerChars pfxArg with
    | nil => exact absurd hl hne
    | cons a l => rfl
  have hpre : (toLowerChars pfxArg).isPrefixOf (onionAddress pk) = false := by
    cases hp : (toLowerChars pfxArg).isPrefixOf (onionAddress pk) with
    | true =>
      exact absurd (onionAddress_mem_alphabet pk c (mem_of_isPrefixOf hp hc)) hcn
    | false => rfl
  simp [prefixMatches, hef, hpre]

/-- Witness for `invalid_prefix_never_matches`: prefix `"0"` against the
all-zero public key. -/
theorem invalid_prefix_never_matches_witness :
    (∃ c ∈ toLowerChars ['0'], c ∉ onionAlphabet) ∧
    (List.replicate 32 0 : Bytes).length = 32 ∧
    prefixMatches (toLowerChars ['0']) (onionAddress (List.replicate 32 0)) = false :=
  ⟨by decide, by decide,
    (invalid_prefix_never_matches ['0'] (List.replicate 32 0) (by decide) (by decide)).2⟩

/-- C7: the secret-key file written by `save` is exactly the
29-character ASCII tag NUL-padded to 32 bytes followed by the 64-byte
expanded scalar, 96 bytes in total, and `verify` rejects every
secret-key file whose length is not 96 or whose first 32 bytes differ
from the padded tag. -/
theorem secret_file_format (expanded : Bytes) (hexp : expanded.length = 64) :
    secretTag.length = 29 ∧
    secretHeaderPadded = secretTag ++ [0, 0, 0] ∧
    (secretFileData expanded).length = 96 ∧
    (secretFileData expanded).take 32 = secretHeaderPadded ∧
    (∀ d : Bytes, ¬ (d.length = 96 ∧ d.take 32 = secretHeaderPadded) →
      ∀ p hostd vk, verifyKeySet d p hostd vk = VerifyOutcome.secretFormatError) := by
  have h1 : secretHeaderPadded.length = 32 := by decide
  refine ⟨by decide, rfl, ?_, ?_, ?_⟩
  · simp [secretFileData, h1, hexp]
  · rw [secretFileData, ← h1, List.take_left]
  · intro d hd p hostd vk
    rw [verifyKeySet, if_neg hd]

/-- Witness for `secret_file_format`: a concrete 64-byte scalar and a
concrete malformed file. -/
theorem secret_file_format_witness :
    (List.replicate 64 2 : Bytes).length = 64 ∧
    (secretFileData (List.replicate 64 2)).length = 96 ∧
    verifyKeySet [1, 2, 3] [] [] [] = VerifyOutcome.secretFormatError :=
  ⟨by decide, (secret_file_format (List.replicate 64 2) (by decide)).2.2.1,
    (secret_file_format (List.replicate 64 2) (by decide)).2.2.2.2 [1, 2, 3]
      (by decide) [] [] []⟩

/-- C5 counterexample: in an empty directory, with the first
`os.WriteFile` succeeding and the second failing, `save` reports
failure yet leaves the new secret-key file behind (and no public-key
file). -/
theorem save_not_atomic :
    (runSave [] (saveWrites pub0Lit expanded0Lit addr0Lit) okFirstOnly 0).2 = false ∧
    fsGet (runSave [] (saveWrites pub0Lit expanded0Lit addr0Lit) okFirstOnly 0).1
      secretKeyPath = some (secretFileData expanded0Lit) ∧
    fsGet (runSave [] (saveWrites pub0Lit expanded0Lit addr0Lit) okFirstOnly 0).1
      publicKeyPath = none := by
  decide

/-- C5 amended: `save` writes the three files in program order with no
staging or rollback: if every write succeeds all three files are
created, and on the first failure the files already written remain — a
failure of the second or third write leaves a partial key set behind.
-/
theorem save_sequential_no_rollback (fs : FS) (pub expanded : Bytes)
    (addr : List Char) (ok : Nat → Bool) :
    (ok 0 = true → ok 1 = true → ok 2 = true →
      runSave fs (saveWrites pub expanded addr) ok 0 =
        (fsSet (fsSet (fsSet fs secretKeyPath (secretFileData expanded))
          publicKeyPath (publicFileData pub)) hostnamePath
          (hostnameFileData addr), true)) ∧
    (ok 0 = false →
      runSave fs (saveWrites pub expanded addr) ok 0 = (fs, false)) ∧
    (ok 0 = true → ok 1 = false →
      runSave fs (saveWrites pub expanded addr) ok 0 =
        (fsSet fs secretKeyPath (secretFileData expanded), false)) ∧
    (ok 0 = true → ok 1 = true → ok 2 = false →
      runSave fs (saveWrites pub expanded addr) ok 0 =
        (fsSet (fsSet fs secretKeyPath (secretFileData expanded)) publicKeyPath
          (publicFileData pub), false)) := by
  refine ⟨?_, ?_, ?_, ?_⟩
  · intro h0 h1 h2
    simp [saveWrites, runSave, h0, h1, h2]
  · intro h0
    simp [saveWrites, runSave, h0]
  · intro h0 h1
    simp [saveWrites, runSave, h0, h1]
  · intro h0 h1 h2
    simp [saveWrites, runSave, h0, h1, h2]

/-- Witness for `save_sequential_no_rollback`: the partial-failure case
with a concrete result and the oracle failing from the second write on.
-/
theorem save_sequential_no_rollback_witness :
    okFirstOnly 0 = true ∧ okFirstOnly 1 = false ∧
    runSave [] (saveWrites pub0Lit expanded0Lit addr0Lit) okFirstOnly 0 =
      (fsSet [] secretKeyPath (secretFileData expanded0Lit), false) :=
  ⟨rfl, rfl,
    (save_sequential_no_rollback [] pub0Lit expanded0Lit addr0Lit okFirstOnly).2.2.1
      rfl rfl⟩


/-! ## Coordinator lemmas -/

/-- With no workers the coordinator state is frozen: every action is
disabled. -/
theorem coordStep_zero (oracle : Nat → Nat → Bool) (a : CoordAct) :
    coordStep oracle (coordInit 0) a = coordInit 0 := by
  cases a with
  | work i => simp [coordStep, coordInit]
  | recv i => simp [coordStep, coordInit]
  | finish => simp [coordStep, coordInit]

/-- With no workers, no schedule moves the coordinator. -/
theorem coordRun_zero (oracle : Nat → Nat → Bool) (acts : List CoordAct) :
    coordRun oracle (coordInit 0) acts = coordInit 0 := by
  induction acts with
  | nil => rfl
  | cons a acts ih =>
    show coordRun oracle (coordStep oracle (coordInit 0) a) acts = coordInit 0
    rw [coordStep_zero]
    exact ih

/-- Once main is past its single receive, a worker blocked in the
unbuffered send can never move again: no step changes it and main never
returns to the receive. -/
theorem sending_stuck (oracle : Nat → Nat → Bool) (s : CoordState)
    (h1 : s.workers[1]? = some ⟨WorkerPhase.sending, 1⟩)
    (hm : s.main = MainPhase.finished) (a : CoordAct) :
    (coordStep oracle s a).workers[1]? = some ⟨WorkerPhase.sending, 1⟩ ∧
    (coordStep oracle s a).main = MainPhase.finished := by
  cases a with
  | work i =>
    cases hgi : s.workers[i]? with
    | none => simp [coordStep, hgi, h1, hm]
    | some w =>
      cases hph : w.phase with
      | running =>
        have hne : i ≠ 1 := by
          intro he
          rw [he, h1] at hgi
          injection hgi with hw
          rw [← hw] at hph
          exact WorkerPhase.noConfusion hph
        have hgs : ∀ v : WorkerSt, (s.workers.set i v)[1]? = s.workers[1]? :=
          fun v => List.getElem?_set_ne hne
        simp only [coordStep, hgi, hph]
        split
        · exact ⟨(hgs _).trans h1, hm⟩
        · split
          · exact ⟨(hgs _).trans h1, hm⟩
          · exact ⟨(hgs _).trans h1, hm⟩
      | sending => simp [coordStep, hgi, hph, h1, hm]
      | terminated => simp [coordStep, hgi, hph, h1, hm]
  | recv i =>
    have hnw : s.main ≠ MainPhase.waiting := by
      rw [hm]
      exact fun h => MainPhase.noConfusion h
    simp [coordStep, hnw, h1, hm]
  | finish =>
    have hng : s.main ≠ MainPhase.gotResult := by
      rw [hm]
      exact fun h => MainPhase.noConfusion h
    simp [coordStep, hng, h1, hm]

/-- Iterated form of `sending_stuck` over a whole schedule. -/
theorem sending_stuck_run (oracle : Nat → Nat → Bool) (s : CoordState)
    (h1 : s.workers[1]? = some ⟨WorkerPhase.sending, 1⟩)
    (hm : s.main = MainPhase.finished) (ext : List CoordAct) :
    (coordRun oracle s ext).workers[1]? = some ⟨WorkerPhase.sending, 1⟩ ∧
    (coordRun oracle s ext).main = MainPhase.finished := by
  induction ext generalizing s with
  | nil => exact ⟨h1, hm⟩
  | cons a ext ih =>
    have hs := sending_stuck oracle s h1 hm a
    exact ih (coordStep oracle s a) hs.1 hs.2

/-- The state after `acts8`: worker 0 received and terminated, worker 1
blocked in the send, main finished, one result received. -/
theorem leak8_reached :
    leak8.workers[1]? = some ⟨WorkerPhase.sending, 1⟩ ∧
    leak8.main = MainPhase.finished ∧ leak8.received = 1 := by decide

/-- After `acts8`, no continuation schedule ever terminates worker 1. -/
theorem leak8_not_all_terminated (ext : List CoordAct) :
    allTerminated (coordRun oracleTrue leak8 ext) = false := by
  have h := sending_stuck_run oracleTrue leak8 leak8_reached.1 leak8_reached.2.1 ext
  cases hall : allTerminated (coordRun oracleTrue leak8 ext) with
  | false => rfl
  | true =>
    have hmem := mem_of_index h.1
    have hterm := List.all_eq_true.mp hall _ hmem
    exact absurd hterm (by decide)

/-- Preservation of the receive invariant by one step. -/
theorem recvInv_step (oracle : Nat → Nat → Bool) (s : CoordState) (a : CoordAct)
    (h : recvInv s) : recvInv (coordStep oracle s a) := by
  cases a with
  | work i =>
    cases hgi : s.workers[i]? with
    | none => simpa [coordStep, hgi] using h
    | some w =>
      cases hph : w.phase with
      | running =>
        simp only [coordStep, hgi, hph]
        split
        · exact h
        · split
          · exact h
          · exact h
      | sending => simpa [coordStep, hgi, hph] using h
      | terminated => simpa [coordStep, hgi, hph] using h
  | recv i =>
    by_cases hw : s.main = MainPhase.waiting
    · cases hgi : s.workers[i]? with
      | none => simpa [coordStep, hw, hgi] using h
      | some w =>
        by_cases hph : w.phase = WorkerPhase.sending
        · have h0 : s.received = 0 := by
            rcases h with ⟨_, h0⟩ | ⟨hnw, _⟩
            · exact h0
            · exact absurd hw hnw
          have hstep : coordStep oracle s (CoordAct.recv i) =
              ⟨s.workers.set i ⟨WorkerPhase.terminated, w.iter⟩, MainPhase.gotResult,
                s.cancelled, s.received + 1⟩ := by
            simp [coordStep, hw, hgi, hph]
          rw [hstep]
          right
          refine ⟨fun hh => MainPhase.noConfusion hh, ?_⟩
          show s.received + 1 = 1
          rw [h0]
        · simpa [coordStep, hw, hgi, hph] using h
    · simpa [coordStep, hw] using h
  | finish =>
    by_cases hg : s.main = MainPhase.gotResult
    · have h1 : s.received = 1 := by
        rcases h with ⟨hwm, _⟩ | ⟨_, h1⟩
        · rw [hg] at hwm
          exact MainPhase.noConfusion hwm
        · exact h1
      have hstep : coordStep oracle s CoordAct.finish =
          ⟨s.workers, MainPhase.finished, true, s.received⟩ := by
        simp [coordStep, hg]
      rw [hstep]
      right
      exact ⟨fun hh => MainPhase.noConfusion hh, h1⟩
    · simpa [coordStep, hg] using h

/-- Preservation of the receive invariant by a whole schedule. -/
theorem recvInv_run (oracle : Nat → Nat → Bool) (s : CoordState)
    (acts : List CoordAct) (h : recvInv s) : recvInv (coordRun oracle s acts) := by
  induction acts generalizing s with
  | nil => exact h
  | cons a acts ih => exact ih (coordStep oracle s a) (recvInv_step oracle s a h)

/-- At most one result is ever received. -/
theorem received_le_one (oracle : Nat → Nat → Bool) (n : Nat) (acts : List CoordAct) :
    (coordRun oracle (coordInit n) acts).received ≤ 1 := by
  have hinv := recvInv_run oracle (coordInit n) acts (Or.inl ⟨rfl, rfl⟩)
  rcases hinv with ⟨_, h0⟩ | ⟨_, h1⟩
  · rw [h0]; exact Nat.zero_le 1
  · rw [h1]

/-- A still-polling worker observes cancellation within one iteration. -/
theorem cancelled_worker_terminates (oracle : Nat → Nat → Bool) (s : CoordState)
    (i : Nat) (w : WorkerSt) (hc : s.cancelled = true)
    (hgi : s.workers[i]? = some w) (hph : w.phase = WorkerPhase.running) :
    (coordStep oracle s (CoordAct.work i)).workers[i]? =
      some ⟨WorkerPhase.terminated, w.iter⟩ := by
  have hlt : i < s.workers.length := by
    cases hlt : decide (i < s.workers.length) with
    | true => exact of_decide_eq_true hlt
    | false =>
      have := List.getElem?_eq_none (Nat.le_of_not_lt (of_decide_eq_false hlt))
      rw [this] at hgi
      exact Option.noConfusion hgi
  simp only [coordStep, hgi, hph, hc, if_true]
  exact List.getElem?_set_eq_of_lt _ hlt

/-! ## C10 and C8 -/

/-- C10: with a zero or negative workers flag the spawn loop of
vanity.go:84-86 starts no worker; under every schedule the coordinator
state never changes: main stays blocked at the receive forever and no
result is ever produced. -/
theorem nonpositive_workers_never_return (w : Int) (hw : w ≤ 0)
    (oracle : Nat → Nat → Bool) (acts : List CoordAct) :
    spawnCount w = 0 ∧
    coordRun oracle (coordInit (spawnCount w)) acts = coordInit 0 ∧
    (coordRun oracle (coordInit (spawnCount w)) acts).main = MainPhase.waiting ∧
    (coordRun oracle (coordInit (spawnCount w)) acts).received = 0 := by
  have h0 : spawnCount w = 0 := by simp [spawnCount, hw]
  refine ⟨h0, ?_, ?_, ?_⟩
  · rw [h0, coordRun_zero]
  · rw [h0, coordRun_zero]
    rfl
  · rw [h0, coordRun_zero]
    rfl

/-- Witness for `nonpositive_workers_never_return` with `-1` workers
and a concrete schedule. -/
theorem nonpositive_workers_never_return_witness :
    ((-1 : Int) ≤ 0) ∧
    coordRun oracleTrue (coordInit (spawnCount (-1)))
      [CoordAct.work 0, CoordAct.recv 0, CoordAct.finish] = coordInit 0 :=
  ⟨by decide,
    (nonpositive_workers_never_return (-1) (by decide) oracleTrue
      [CoordAct.work 0, CoordAct.recv 0, CoordAct.finish]).2.1⟩

/-- C8 counterexample: it is not the case that under every interleaving
every worker terminates.  With two workers that both find matches
(always-true oracle), after the schedule `acts8` — both enter the
blocking send, main receives worker 0's result and cancels — worker 1
is blocked in the unbuffered channel send and no continuation schedule
ever terminates it: the goroutine is leaked. -/
theorem coordinator_leaks_worker :
    ¬ (∀ acts : List CoordAct, ∃ ext : List CoordAct,
        allTerminated (coordRun oracleTrue (coordRun oracleTrue (coordInit 2) acts) ext)
          = true) := by
  intro hcl
  obtain ⟨ext, hext⟩ := hcl acts8
  have hf : allTerminated (coordRun oracleTrue (coordRun oracleTrue (coordInit 2) acts8) ext)
      = false := leak8_not_all_terminated ext
  exact Bool.noConfusion (hext.symm.trans hf)

/-- C8 amended: under every interleaving at most one result is received
(and the schedule `acts8` completes with exactly one); a worker still
polling when cancellation arrives terminates within one iteration; but
a second matching worker blocks forever in the unbuffered send — a
leaked goroutine — so the claim's no-leak guarantee fails. -/
theorem coordinator_one_result_but_leaks :
    (∀ (oracle : Nat → Nat → Bool) (n : Nat) (acts : List CoordAct),
      (coordRun oracle (coordInit n) acts).received ≤ 1) ∧
    (∀ (oracle : Nat → Nat → Bool) (s : CoordState) (i : Nat) (w : WorkerSt),
      s.cancelled = true → s.workers[i]? = some w →
      w.phase = WorkerPhase.running →
      (coordStep oracle s (CoordAct.work i)).workers[i]? =
        some ⟨WorkerPhase.terminated, w.iter⟩) ∧
    ((coordRun oracleTrue (coordInit 2) acts8).received = 1 ∧
      (coordRun oracleTrue (coordInit 2) acts8).main = MainPhase.finished) ∧
    (∀ ext : List CoordAct,
      allTerminated (coordRun oracleTrue (coordRun oracleTrue (coordInit 2) acts8) ext)
        = false) :=
  ⟨received_le_one,
    fun oracle s i w hc hgi hph => cancelled_worker_terminates oracle s i w hc hgi hph,
    by decide,
    fun ext => leak8_not_all_terminated ext⟩

/-- Witness for `coordinator_one_result_but_leaks` at the concrete
two-worker schedule. -/
theorem coordinator_one_result_but_leaks_witness :
    (coordRun oracleTrue (coordInit 2) acts8).received ≤ 1 ∧
    allTerminated (coordRun oracleTrue (coordRun oracleTrue (coordInit 2) acts8) [])
      = false :=
  ⟨coordinator_one_result_but_leaks.1 oracleTrue 2 acts8,
    coordinator_one_result_but_leaks.2.2.2 []⟩


/-! ## C1 and C2: the persistence round trip and the validator derivation -/

/-- C1 (code bug): the save/load/verify round trip fails.  After a
fully successful `save` of the all-zero-seed result, (i) `save` never
writes `vanity.json`, so the load path takes the non-persistent branch
and `verify` does not even run; and (ii) running the verification
sequence directly on the three saved files rejects them with a
public-key mismatch, because the validator re-derives the key through
`ed25519.NewKeyFromSeed` on the stored scalar instead of using it
directly. -/
theorem save_then_load_verify_fails :
    fsGet res0FS vanityJsonPath = none ∧
    loadAndVerify res0FS vkOnion0 = VerifyOutcome.notPersistent ∧
    verifyKeySet (secretFileData expanded0) (publicFileData pub0)
      (hostnameFileData addr0) vkOnion0 = VerifyOutcome.pubKeyMismatch := by
  refine ⟨by decide, by decide, ?_⟩
  rw [show expanded0 = expanded0Lit from expanded0_eval,
    show pub0 = pub0Lit from pub0_eval,
    show addr0 = addr0Lit from addr0_eval]
  have hs : ((secretFileData expanded0Lit).drop 32).take 32 = scalar0Lit := by
    decide
  simp only [verifyKeySet]
  rw [hs, rehash0_pub]
  decide

/-- C2 (code bug): the validator does not treat the stored 32 scalar
bytes as a ready-to-use scalar — static.go:92 feeds them to
`ed25519.NewKeyFromSeed`, the normal keypair-from-seed function, which
hashes them again.  On the all-zero-seed key set the code's derivation
differs from the direct-scalar derivation the claim (and section 9 of
the specification) describes, and only the latter reproduces the stored
public key. -/
theorem validator_rehashes_stored_scalar :
    (expand seed0).take 32 = scalar0Lit ∧
    validatorDerivedPub scalar0Lit = derived0Lit ∧
    specDerivedPub scalar0Lit = pub0Lit ∧
    derived0Lit ≠ pub0Lit ∧
    pubOf seed0 = pub0Lit := by
  refine ⟨?_, ?_, ?_, by decide, ?_⟩
  · rw [show expand seed0 = expanded0Lit from expanded0_eval]
    decide
  · show newKeyFromSeed scalar0Lit = derived0Lit
    rw [rehash0_pub]
    decide
  · show edEncode (edSmul (bytesLE scalar0Lit) edB) = pub0Lit
    rw [show bytesLE scalar0Lit =
        39325648866980652792715009169219496062012184734522019333892538943312776480336
      from by decide, zeroSeed_point, zeroSeed_encode]
    decide
  · show newKeyFromSeed seed0 = pub0Lit
    rw [zeroSeed_pub]
    decide

end Cheeseburger
